import Mathlib

/-!
Verification of the divio-cli remote content synchronization workflow and the
app-template client, embedded shallowly from `divio_cli/cli.py`,
`divio_cli/app_template.py`, and — for the parts of the workflow that live in
the `divio_cli.localdev` package — from the repository's specification.
-/

set_option autoImplicit false

namespace Divio

/-! ## App templates (`divio_cli/app_template.py`) -/

/-- A `DivioException` raised by the HTTP client layer
(`divio_cli.exceptions`), modelled by its message text. -/
structure DivioException where
  msg : String
  deriving DecidableEq, Repr

/-- Parsed JSON data returned by the control panel, modelled as an
association list of key/value pairs. -/
abbrev TemplateData := List (String × String)

/-- Python `dict.update`: existing keys keep their position but take the new
value; keys only present in the update are appended. -/
def dictUpdate (old new : TemplateData) : TemplateData :=
  (old.map (fun p =>
    match new.lookup p.fst with
    | some v => (p.fst, v)
    | none => p))
  ++ new.filter (fun q => (old.lookup q.fst).isNone)

/-- The HTTP client collaborator: `get_json(path, method="GET")` either
returns parsed JSON data or raises a `DivioException`. -/
structure Client where
  get_json : String → Except DivioException TemplateData

/-- `AppTemplate.LIST_APP_TEMPLATES_URL_PATH`. -/
def LIST_APP_TEMPLATES_URL_PATH : String := "/apps/v3/app-templates/"

/-- `AppTemplate.GET_APP_TEMPLATE_URL_PATH.format(uuid=uuid)`: the class
constant is the literal path template and `.format` substitutes the uuid at
its placeholder, giving this string. -/
def getAppTemplateUrl (uuid : String) : String :=
  "/apps/v3/app-templates/" ++ uuid

/-- An `AppTemplate` instance: its uuid and its data dictionary (the `client`
attribute is passed separately in this embedding). -/
structure AppTemplate where
  uuid : String
  data : TemplateData
  deriving DecidableEq, Repr

/-- `AppTemplate.DoesNotExistError(msg) from original_exception`: a
`DivioException` subclass carrying its message and the chained cause. -/
structure DoesNotExistError where
  msg : String
  cause : DivioException
  deriving DecidableEq, Repr

/-- `AppTemplate.refresh`: fetch the template's data and merge it into
`self.data`; any `DivioException` from the client is turned into a
`DoesNotExistError` chained from the original exception. -/
def AppTemplate.refresh (client : Client) (t : AppTemplate) :
    Except DoesNotExistError AppTemplate :=
  match client.get_json (getAppTemplateUrl t.uuid) with
  | .ok app_template_data =>
      .ok { t with data := dictUpdate t.data app_template_data }
  | .error original_exception =>
      .error ⟨"No app temlate with UUID " ++ t.uuid ++ " found",
              original_exception⟩

/-- `AppTemplate.__init__(client, uuid, data=None, refresh=True)`:
`self.data = data or ` the empty dict, then `self.refresh()` when the
refresh flag is set. -/
def AppTemplate.init (client : Client) (uuid : String)
    (data : Option TemplateData) (refreshFlag : Bool) :
    Except DoesNotExistError AppTemplate :=
  let t : AppTemplate := ⟨uuid, data.getD []⟩
  if refreshFlag then t.refresh client else .ok t

/-- `AppTemplate.get(client, uuid)`: fetch the data and construct the
instance with `refresh=False`; any `DivioException` raised inside the try
block becomes a `DoesNotExistError` chained from the original exception. -/
def AppTemplate.get (client : Client) (uuid : String) :
    Except DoesNotExistError AppTemplate :=
  match client.get_json (getAppTemplateUrl uuid) with
  | .ok d => AppTemplate.init client uuid (some d) false
  | .error original_exception =>
      .error ⟨"No app temlate with UUID " ++ uuid ++ " found",
              original_exception⟩

/-- A concrete client whose requests always fail with a server-side error that
is not a missing-template error. -/
def clientFailEx : Client :=
  ⟨fun _ => .error ⟨"500 internal server error"⟩⟩

/-! ## CLI surface (`divio_cli/cli.py`) -/

/-- The kind of a click parameter: a positional argument, an option taking a
value, or a boolean flag option. -/
inductive ParamKind
  | positional
  | valueOption
  | flagOption
  deriving DecidableEq, Repr

/-- One declared parameter of a click command: its name, its kind, and
whether the caller may omit it (a default exists or it is an option). -/
structure ClickParam where
  name : String
  kind : ParamKind
  optional : Bool
  deriving DecidableEq, Repr

/-- Parameters of `pull db` as declared on `pull_db` in `cli.py`:
the `--keep-tempfile` flag (default False), the `environment` argument
(default "test") and the service-selector argument (default
`localdev.DEFAULT_SERVICE_PREFIX`). The `allow_remote_id_override`
decorator comes from `divio_cli.localdev.utils`, outside this embedding. -/
def pull_db_params : List ClickParam :=
  [⟨"keep-tempfile", ParamKind.flagOption, true⟩,
   ⟨"environment", ParamKind.positional, true⟩,
   ⟨"prefix", ParamKind.positional, true⟩]

/-- Parameters of `push db` as declared on `push_db` in `cli.py`:
the `environment` argument (default "test"), the `--dumpfile` path option
(default None), the `--noinput` flag (default False), and the
service-selector argument. -/
def push_db_params : List ClickParam :=
  [⟨"environment", ParamKind.positional, true⟩,
   ⟨"dumpfile", ParamKind.valueOption, true⟩,
   ⟨"noinput", ParamKind.flagOption, true⟩,
   ⟨"prefix", ParamKind.positional, true⟩]

/-- Parameters of `import db` as declared on `import_db` in `cli.py`:
the service-selector argument and the `dump-path` argument (default
`localdev.DEFAULT_DUMP_FILENAME`). -/
def import_db_params : List ClickParam :=
  [⟨"prefix", ParamKind.positional, true⟩,
   ⟨"dump-path", ParamKind.positional, true⟩]

/-- Parameters of `export db` as declared on `export_db` in `cli.py`:
only the service-selector argument. -/
def export_db_params : List ClickParam :=
  [⟨"prefix", ParamKind.positional, true⟩]

/-- Modelled from the spec: the declared surface
`pull db [--keep-tempfile] [environment] [prefix]`. -/
def spec_pull_db_params : List ClickParam :=
  [⟨"keep-tempfile", ParamKind.flagOption, true⟩,
   ⟨"environment", ParamKind.positional, true⟩,
   ⟨"prefix", ParamKind.positional, true⟩]

/-- Modelled from the spec: the declared surface
`push db [environment] [--dumpfile PATH] [--noinput] [prefix]`. -/
def spec_push_db_params : List ClickParam :=
  [⟨"environment", ParamKind.positional, true⟩,
   ⟨"dumpfile", ParamKind.valueOption, true⟩,
   ⟨"noinput", ParamKind.flagOption, true⟩,
   ⟨"prefix", ParamKind.positional, true⟩]

/-- Modelled from the spec: the declared surface `import db [prefix]
[dump-path]`. -/
def spec_import_db_params : List ClickParam :=
  [⟨"prefix", ParamKind.positional, true⟩,
   ⟨"dump-path", ParamKind.positional, true⟩]

/-- Modelled from the spec: the declared surface `export db [prefix]`. -/
def spec_export_db_params : List ClickParam :=
  [⟨"prefix", ParamKind.positional, true⟩]

/-- The error taxonomy of the synchronization workflow. -/
inductive ErrorKind
  | remoteRequestError
  | jobFailedError
  | jobTimeoutError
  | incompleteTransferError
  | corruptArchiveError
  | restoreError
  deriving DecidableEq, Repr

/-- Modelled from the spec: a command exits with code 0 on success and a
non-zero code on any failure kind from the taxonomy (the process-exit glue —
click's main wrapper and the excepthook — is outside `src/`). -/
def commandExitCode : Option ErrorKind → Nat
  | none => 0
  | some _ => 1

/-- Observable events performed by the `push db` / `push media` command
bodies in `cli.py`: the red warning output (whose text, taken from
`divio_cli.messages`, is formatted with the target environment), the
`click.confirm` prompt, and the three push operations delegated to
`divio_cli.localdev`. -/
inductive CliEvent
  | warnPushDb (environment : String)
  | warnPushMedia (environment : String)
  | confirmPrompt
  | runPushDb
  | runPushLocalDb (dumpfile : String)
  | runPushMedia
  deriving DecidableEq, Repr

/-- Whether an event is one of the push operations delegated to
`divio_cli.localdev`. -/
def isPushEvent : CliEvent → Bool
  | CliEvent.runPushDb => true
  | CliEvent.runPushLocalDb _ => true
  | CliEvent.runPushMedia => true
  | _ => false

/-- The body of `push_db` (`cli.py`): without `--dumpfile` it warns, asks for
confirmation (unless `--noinput`) and calls `localdev.push_db`; with
`--dumpfile` it does the same but calls `localdev.push_local_db`. Declining
the prompt returns from the body at once. The pair holds the events
performed and the error that the invoked push operation raised, if any
(`pushOutcome` is the outcome of the localdev push call when it happens;
the body raises nothing on the decline path). -/
def push_db_run (environment : String) (dumpfile : Option String)
    (noinput confirmAnswer : Bool) (pushOutcome : Option ErrorKind) :
    List CliEvent × Option ErrorKind :=
  match dumpfile with
  | none =>
      if noinput = false then
        if confirmAnswer = false then
          ([CliEvent.warnPushDb environment, CliEvent.confirmPrompt], none)
        else
          ([CliEvent.warnPushDb environment, CliEvent.confirmPrompt,
            CliEvent.runPushDb], pushOutcome)
      else ([CliEvent.runPushDb], pushOutcome)
  | some df =>
      if noinput = false then
        if confirmAnswer = false then
          ([CliEvent.warnPushDb environment, CliEvent.confirmPrompt], none)
        else
          ([CliEvent.warnPushDb environment, CliEvent.confirmPrompt,
            CliEvent.runPushLocalDb df], pushOutcome)
      else ([CliEvent.runPushLocalDb df], pushOutcome)

/-- The body of `push_media` (`cli.py`): warn, ask for confirmation (unless
`--noinput`), declining returns at once; otherwise call
`localdev.push_media`. -/
def push_media_run (environment : String) (noinput confirmAnswer : Bool)
    (pushOutcome : Option ErrorKind) :
    List CliEvent × Option ErrorKind :=
  if noinput = false then
    if confirmAnswer = false then
      ([CliEvent.warnPushMedia environment, CliEvent.confirmPrompt], none)
    else
      ([CliEvent.warnPushMedia environment, CliEvent.confirmPrompt,
        CliEvent.runPushMedia], pushOutcome)
  else ([CliEvent.runPushMedia], pushOutcome)

/-! ## RemoteJobPoller — modelled from the spec (the implementation lives in
`divio_cli.localdev`, outside `src/`) -/

/-- Modelled from the spec: an error of the workflow taxonomy together with
its diagnostic message (server message, engine output, ...). -/
structure StageError where
  kind : ErrorKind
  message : String
  deriving DecidableEq, Repr

/-- Modelled from the spec: the status of a server-side dump job. -/
inductive JobStatus
  | pending
  | running
  | ready
  | failed
  | expired
  deriving DecidableEq, Repr

/-- Modelled from the spec: one poll response from the job-status endpoint:
the job status, the server message, and the download URL (present only when
the job is ready). -/
structure PollResponse where
  status : JobStatus
  serverMessage : String
  downloadUrl : Option String
  deriving DecidableEq, Repr

/-- Whether a status ends the polling loop. -/
def isTerminalStatus : JobStatus → Bool
  | JobStatus.ready => true
  | JobStatus.failed => true
  | JobStatus.expired => true
  | _ => false

/-- Modelled from the spec: the polling loop of `wait_until_ready`. `poll k`
is the response of the k-th status check; `elapsed` is the time at which that
check happens (checks are `interval` apart); after a non-terminal response
the loop sleeps for `interval` and repeats only while the elapsed time stays
within `timeout`, otherwise it fails with `JobTimeoutError`. `fuel` is a
structural recursion bound chosen large enough never to be reached. -/
def waitAux (poll : Nat → PollResponse) (interval timeout : Nat) :
    Nat → Nat → Nat → Except StageError PollResponse
  | _, _, 0 => .error ⟨ErrorKind.jobTimeoutError, "timeout"⟩
  | k, elapsed, fuel+1 =>
      let r := poll k
      if r.status = JobStatus.ready then .ok r
      else if r.status = JobStatus.failed ∨ r.status = JobStatus.expired then
        .error ⟨ErrorKind.jobFailedError, r.serverMessage⟩
      else if elapsed + interval ≤ timeout then
        waitAux poll interval timeout (k+1) (elapsed + interval) fuel
      else
        .error ⟨ErrorKind.jobTimeoutError, "timeout"⟩

/-- Modelled from the spec: `wait_until_ready(job, interval, timeout)`
repeatedly polls at a fixed interval until the status is ready (return),
failed or expired (fail with `JobFailedError` carrying the server message),
or the elapsed time exceeds `timeout` (fail with `JobTimeoutError`). -/
def wait_until_ready (poll : Nat → PollResponse) (interval timeout : Nat) :
    Except StageError PollResponse :=
  waitAux poll interval timeout 0 0 (timeout / interval + 2)

/-- The value the polling loop produces at a terminal response: the response
itself when ready, otherwise a `JobFailedError` carrying the server
message. -/
def terminalResult (r : PollResponse) : Except StageError PollResponse :=
  if r.status = JobStatus.ready then .ok r
  else .error ⟨ErrorKind.jobFailedError, r.serverMessage⟩

/-- A concrete poll trace: pending twice, then ready. -/
def pollEx : Nat → PollResponse :=
  fun k =>
    if k = 2 then ⟨JobStatus.ready, "done", some "https://example.invalid/dump"⟩
    else ⟨JobStatus.pending, "", none⟩

/-! ## StreamedDownloader — modelled from the spec -/

/-- The local filesystem, as a map from paths to file contents (bytes). -/
abbrev FileSystem := String → Option (List Nat)

/-- Write a file. -/
def fsWrite (fs : FileSystem) (path : String) (content : List Nat) :
    FileSystem :=
  fun p => if p = path then some content else fs p

/-- Delete a file. -/
def fsDelete (fs : FileSystem) (path : String) : FileSystem :=
  fun p => if p = path then none else fs p

/-- Modelled from the spec: an in-flight streamed file transfer. -/
structure TransferHandle where
  source : String
  destination : String
  expectedSize : Option Nat
  bytesTransferred : Nat
  deriving DecidableEq, Repr

/-- Modelled from the spec: `download(url, destination_path)` streams the
arriving chunks to the destination file; if the server declared a content
length and fewer bytes arrive than declared, the partially-written
destination file is deleted before the error propagates and the transfer
fails with `IncompleteTransferError`. Returns the transfer outcome and the
post-transfer filesystem. -/
def download (url destination : String) (declaredLength : Option Nat)
    (chunks : List (List Nat)) (fs : FileSystem) :
    Except StageError TransferHandle × FileSystem :=
  let received := chunks.flatten
  let fsWritten := fsWrite fs destination received
  match declaredLength with
  | some n =>
      if received.length < n then
        (.error ⟨ErrorKind.incompleteTransferError, "incomplete download"⟩,
         fsDelete fsWritten destination)
      else
        (.ok ⟨url, destination, some n, received.length⟩, fsWritten)
  | none => (.ok ⟨url, destination, none, received.length⟩, fsWritten)

/-! ## LocalArchiveHandler — modelled from the spec -/

/-- Run-length encode a byte sequence into (count, byte) pairs. -/
def rleEncode : List Nat → List (Nat × Nat)
  | [] => []
  | x :: xs =>
      match rleEncode xs with
      | [] => [(1, x)]
      | (n, y) :: rest =>
          if x = y then (n+1, y) :: rest else (1, x) :: (n, y) :: rest

/-- Decode run-length (count, byte) pairs back to the byte sequence. -/
def rleDecode : List (Nat × Nat) → List Nat
  | [] => []
  | (n, y) :: rest => List.replicate n y ++ rleDecode rest

/-- Serialize (count, byte) pairs into a flat byte list. -/
def flattenPairs : List (Nat × Nat) → List Nat
  | [] => []
  | (n, y) :: rest => n :: y :: flattenPairs rest

/-- Parse a flat byte list back into (count, byte) pairs; fails on odd
length. -/
def parsePairs : List Nat → Option (List (Nat × Nat))
  | [] => some []
  | [_] => none
  | n :: y :: rest => (parsePairs rest).map (fun ps => (n, y) :: ps)

/-- The two-byte magic header of the archive container. -/
def ARCHIVE_MAGIC : List Nat := [68, 67]

/-- Modelled from the spec: `compress(source_path, workspace)` over the
source bytes — a deterministic run-length container: the magic header
followed by the flattened (count, byte) pairs. -/
def compress (x : List Nat) : List Nat :=
  ARCHIVE_MAGIC ++ flattenPairs (rleEncode x)

/-- Modelled from the spec: `extract(archive_path, workspace)` over the
archive bytes; fails with `CorruptArchiveError` if the archive cannot be
opened (bad header or malformed payload). -/
def extract (a : List Nat) : Except StageError (List Nat) :=
  match a with
  | b0 :: b1 :: payload =>
      if b0 = 68 ∧ b1 = 67 then
        match parsePairs payload with
        | some ps => .ok (rleDecode ps)
        | none => .error ⟨ErrorKind.corruptArchiveError, "corrupt archive"⟩
      else .error ⟨ErrorKind.corruptArchiveError, "corrupt archive"⟩
  | _ => .error ⟨ErrorKind.corruptArchiveError, "corrupt archive"⟩

/-! ## DatabaseImporter — modelled from the spec -/

/-- The result of the local database engine's restore process: its exit code
and its captured stderr/stdout. -/
structure ProcessResult where
  exitCode : Nat
  diagnosticOutput : String
  deriving DecidableEq, Repr

/-- Modelled from the spec: `import_dump(extracted_path, engine)` invokes the
local engine's restore facility; `proc` is the restore process's result.
Non-zero exit fails with `RestoreError` carrying the engine's exact
diagnostic text; zero exit succeeds. -/
def importDump (proc : ProcessResult) : Except StageError Unit :=
  if proc.exitCode = 0 then .ok ()
  else .error ⟨ErrorKind.restoreError, proc.diagnosticOutput⟩

/-! ## SyncWorkflow — modelled from the spec (§4.5): the pull direction lives
in `divio_cli.localdev.ImportRemoteDatabase`, the push direction in
`divio_cli.localdev.push_db` / `push_local_db`, both outside `src/`. -/

/-- Modelled from the spec: the states of the workflow state machine. -/
inductive WorkflowState
  | idle
  | requesting
  | polling
  | downloading
  | extracting
  | importing
  | done
  | failed
  deriving DecidableEq, Repr

/-- The five non-terminal states of the pull workflow, at each of which a
failure or user abort may be injected. -/
inductive PullStage
  | requesting
  | polling
  | downloading
  | extracting
  | importing
  deriving DecidableEq, Repr

/-- The injected outcome of each pull stage: success, or the stage's error. -/
structure PullOutcomes where
  requestOutcome : Except StageError Unit
  pollOutcome : Except StageError Unit
  downloadOutcome : Except StageError Unit
  extractOutcome : Except StageError Unit
  importOutcome : Except StageError Unit
  deriving Repr

/-- The caller-controlled configuration of a pull workflow run: the
`keep-tempfile` retention flag, the no-confirmation bypass, the user's
answer to the confirmation prompt, and an optional injected user abort at a
given state. -/
structure PullConfig where
  keepTempfile : Bool
  autoConfirm : Bool
  userConfirms : Bool
  abortAt : Option PullStage
  deriving DecidableEq, Repr

/-- The observable outcome of a pull workflow run: the final state, whether
the TempWorkspace is still on disk, the error surfaced at the workflow
boundary, and whether the destructive import step was entered. -/
structure PullResult where
  finalState : WorkflowState
  workspaceOnDisk : Bool
  surfacedError : Option StageError
  importEntered : Bool
  deriving DecidableEq, Repr

/-- Cleanup of the TempWorkspace respecting the retention flag: the
workspace stays on disk exactly when retention was requested. -/
def cleanupWorkspace (keepTempfile : Bool) : Bool := keepTempfile

/-- A pull run ending in a user abort: cleanup runs, no error surfaces, the
destructive step was not entered. -/
def pullAborted (cfg : PullConfig) : PullResult :=
  ⟨WorkflowState.failed, cleanupWorkspace cfg.keepTempfile, none, false⟩

/-- A pull run ending in a stage failure before the import step: the
workflow transitions to Failed, cleanup runs, and the originating error
surfaces unchanged. -/
def pullFailed (cfg : PullConfig) (e : StageError) : PullResult :=
  ⟨WorkflowState.failed, cleanupWorkspace cfg.keepTempfile, some e, false⟩

/-- Modelled from the spec (§4.5): one run of the pull direction of
SyncWorkflow. The TempWorkspace is created at workflow start; the stages
Requesting → Polling → Downloading → Extracting → Importing run in sequence;
a user abort (`abortAt`) or a stage failure at any state leads to Failed and
runs the cleanup path; the destructive-action gate (confirmation unless
bypassed) guards the transition into Importing; Done also releases the
workspace unless retention was requested. -/
def runPull (cfg : PullConfig) (out : PullOutcomes) : PullResult :=
  if cfg.abortAt = some PullStage.requesting then pullAborted cfg
  else match out.requestOutcome with
  | .error e => pullFailed cfg e
  | .ok _ =>
    if cfg.abortAt = some PullStage.polling then pullAborted cfg
    else match out.pollOutcome with
    | .error e => pullFailed cfg e
    | .ok _ =>
      if cfg.abortAt = some PullStage.downloading then pullAborted cfg
      else match out.downloadOutcome with
      | .error e => pullFailed cfg e
      | .ok _ =>
        if cfg.abortAt = some PullStage.extracting then pullAborted cfg
        else match out.extractOutcome with
        | .error e => pullFailed cfg e
        | .ok _ =>
          if ¬ (cfg.autoConfirm = true ∨ cfg.userConfirms = true) then
            pullAborted cfg
          else if cfg.abortAt = some PullStage.importing then pullAborted cfg
          else match out.importOutcome with
          | .error e =>
              ⟨WorkflowState.failed, cleanupWorkspace cfg.keepTempfile,
               some e, true⟩
          | .ok _ =>
              ⟨WorkflowState.done, cleanupWorkspace cfg.keepTempfile,
               none, true⟩

/-- The errors of the injected stage outcomes — the originating errors a
pull run can surface. -/
def outcomeErrors (out : PullOutcomes) : List StageError :=
  (match out.requestOutcome with | .error e => [e] | .ok _ => [])
  ++ (match out.pollOutcome with | .error e => [e] | .ok _ => [])
  ++ (match out.downloadOutcome with | .error e => [e] | .ok _ => [])
  ++ (match out.extractOutcome with | .error e => [e] | .ok _ => [])
  ++ (match out.importOutcome with | .error e => [e] | .ok _ => [])

/-- The first stage error in workflow order, if any. -/
def firstOutcomeError (out : PullOutcomes) : Option StageError :=
  match out.requestOutcome with
  | .error e => some e
  | .ok _ =>
    match out.pollOutcome with
    | .error e => some e
    | .ok _ =>
      match out.downloadOutcome with
      | .error e => some e
      | .ok _ =>
        match out.extractOutcome with
        | .error e => some e
        | .ok _ =>
          match out.importOutcome with
          | .error e => some e
          | .ok _ => none

/-- The non-terminal states of the push workflow. -/
inductive PushStage
  | dumping
  | compressing
  | uploading
  | triggeringRemoteImport
  deriving DecidableEq, Repr

/-- The injected outcome of each push stage. -/
structure PushOutcomes where
  dumpOutcome : Except StageError Unit
  compressOutcome : Except StageError Unit
  uploadOutcome : Except StageError Unit
  triggerOutcome : Except StageError Unit
  deriving Repr

/-- The caller-controlled configuration of a push workflow run. -/
structure PushConfig where
  keepTempfile : Bool
  autoConfirm : Bool
  userConfirms : Bool
  abortAt : Option PushStage
  deriving DecidableEq, Repr

/-- The observable outcome of a push workflow run. -/
structure PushResult where
  finalState : WorkflowState
  workspaceOnDisk : Bool
  surfacedError : Option StageError
  remoteImportTriggered : Bool
  deriving DecidableEq, Repr

/-- A push run ending in a user abort. -/
def pushAborted (cfg : PushConfig) : PushResult :=
  ⟨WorkflowState.failed, cleanupWorkspace cfg.keepTempfile, none, false⟩

/-- A push run ending in a stage failure before the remote import. -/
def pushFailed (cfg : PushConfig) (e : StageError) : PushResult :=
  ⟨WorkflowState.failed, cleanupWorkspace cfg.keepTempfile, some e, false⟩

/-- Modelled from the spec (§4.5): one run of the push direction of
SyncWorkflow: Dumping → Compressing → Uploading → TriggeringRemoteImport,
with the destructive-action gate guarding the transition into
TriggeringRemoteImport and the same cleanup discipline as the pull
direction. -/
def runPush (cfg : PushConfig) (out : PushOutcomes) : PushResult :=
  if cfg.abortAt = some PushStage.dumping then pushAborted cfg
  else match out.dumpOutcome with
  | .error e => pushFailed cfg e
  | .ok _ =>
    if cfg.abortAt = some PushStage.compressing then pushAborted cfg
    else match out.compressOutcome with
    | .error e => pushFailed cfg e
    | .ok _ =>
      if cfg.abortAt = some PushStage.uploading then pushAborted cfg
      else match out.uploadOutcome with
      | .error e => pushFailed cfg e
      | .ok _ =>
        if ¬ (cfg.autoConfirm = true ∨ cfg.userConfirms = true) then
          pushAborted cfg
        else if cfg.abortAt = some PushStage.triggeringRemoteImport then
          pushAborted cfg
        else match out.triggerOutcome with
        | .error e =>
            ⟨WorkflowState.failed, cleanupWorkspace cfg.keepTempfile,
             some e, true⟩
        | .ok _ =>
            ⟨WorkflowState.done, cleanupWorkspace cfg.keepTempfile,
             none, true⟩

/-- A concrete pull configuration: bypass confirmation, no retention, no
abort. -/
def pullConfigEx : PullConfig := ⟨false, true, false, none⟩

/-- A concrete set of pull outcomes whose request stage fails. -/
def pullOutcomesFailEx : PullOutcomes :=
  ⟨.error ⟨ErrorKind.remoteRequestError, "401 unauthorized"⟩,
   .ok (), .ok (), .ok (), .ok ()⟩

/-- A concrete set of pull outcomes where every stage succeeds. -/
def pullOutcomesOkEx : PullOutcomes := ⟨.ok (), .ok (), .ok (), .ok (), .ok ()⟩

/-! ## Theorems -/

/-- C10: for every uuid, whenever the underlying client request raises any
`DivioException`, `AppTemplate.get` and `AppTemplate.refresh` (hence
construction with `refresh=True`) raise `AppTemplate.DoesNotExistError` with
the message "No app temlate with UUID {uuid} found", chained from the
original exception — regardless of whether the underlying failure was a
missing template or some other request error. -/
theorem C10_app_template_does_not_exist
    (client : Client) (uuid : String) (data : TemplateData)
    (e : DivioException)
    (h : client.get_json (getAppTemplateUrl uuid) = .error e) :
    AppTemplate.get client uuid =
      .error ⟨"No app temlate with UUID " ++ uuid ++ " found", e⟩
    ∧ AppTemplate.refresh client ⟨uuid, data⟩ =
      .error ⟨"No app temlate with UUID " ++ uuid ++ " found", e⟩
    ∧ (∀ d : Option TemplateData,
        AppTemplate.init client uuid d true =
          .error ⟨"No app temlate with UUID " ++ uuid ++ " found", e⟩) := by
  refine ⟨?_, ?_, fun d => ?_⟩ <;>
    simp [AppTemplate.get, AppTemplate.refresh, AppTemplate.init, h]

/-- Witness for C10: a client failing with a generic server error. -/
theorem C10_app_template_does_not_exist_witness :
    AppTemplate.get clientFailEx "u-1" =
      .error ⟨"No app temlate with UUID " ++ "u-1" ++ " found",
              ⟨"500 internal server error"⟩⟩
    ∧ AppTemplate.refresh clientFailEx ⟨"u-1", []⟩ =
      .error ⟨"No app temlate with UUID " ++ "u-1" ++ " found",
              ⟨"500 internal server error"⟩⟩ :=
  ⟨(C10_app_template_does_not_exist clientFailEx "u-1" []
      ⟨"500 internal server error"⟩ rfl).1,
   (C10_app_template_does_not_exist clientFailEx "u-1" []
      ⟨"500 internal server error"⟩ rfl).2.1⟩

/-- C8: the CLI surface for the sync workflow is exactly the one the spec
declares — `pull db [--keep-tempfile] [environment] [prefix]`,
`push db [environment] [--dumpfile PATH] [--noinput] [prefix]`,
`import db [prefix] [dump-path]`, `export db [prefix]` — every parameter is
optional, and the exit code is 0 exactly on success. -/
theorem C8_cli_surface :
    pull_db_params = spec_pull_db_params
    ∧ push_db_params = spec_push_db_params
    ∧ import_db_params = spec_import_db_params
    ∧ export_db_params = spec_export_db_params
    ∧ (∀ p ∈ pull_db_params ++ push_db_params
          ++ import_db_params ++ export_db_params, p.optional = true)
    ∧ (∀ r : Option ErrorKind, commandExitCode r = 0 ↔ r = none) := by
  refine ⟨rfl, rfl, rfl, rfl, by decide, ?_⟩
  intro r
  cases r <;> simp [commandExitCode]

/-- Witness for C8 at a concrete parameter and a concrete exit. -/
theorem C8_cli_surface_witness :
    (⟨"keep-tempfile", ParamKind.flagOption, true⟩ : ClickParam).optional
      = true
    ∧ (commandExitCode none = 0 ↔ (none : Option ErrorKind) = none) :=
  ⟨C8_cli_surface.2.2.2.2.1 ⟨"keep-tempfile", ParamKind.flagOption, true⟩
      (by decide),
   C8_cli_surface.2.2.2.2.2 none⟩

/-- C9: for `push db` and `push media` invoked without `--noinput`, a "no"
answer to the confirmation prompt makes the command body return without
invoking any push operation, and the process exits with code 0, not a
failure code. -/
theorem C9_decline_is_clean_exit (environment : String)
    (dumpfile : Option String) (pushOutcome : Option ErrorKind) :
    (∀ e ∈ (push_db_run environment dumpfile false false pushOutcome).1,
        isPushEvent e = false)
    ∧ commandExitCode
        (push_db_run environment dumpfile false false pushOutcome).2 = 0
    ∧ (∀ e ∈ (push_media_run environment false false pushOutcome).1,
        isPushEvent e = false)
    ∧ commandExitCode
        (push_media_run environment false false pushOutcome).2 = 0 := by
  cases dumpfile <;>
    simp [push_db_run, push_media_run, isPushEvent, commandExitCode]

/-- Witness for C9: declining `push db` with a would-be failing push. -/
theorem C9_decline_is_clean_exit_witness :
    isPushEvent CliEvent.confirmPrompt = false
    ∧ commandExitCode
        (push_db_run "test" none false false
          (some ErrorKind.restoreError)).2 = 0 :=
  ⟨(C9_decline_is_clean_exit "test" none (some ErrorKind.restoreError)).1
      CliEvent.confirmPrompt (by simp [push_db_run]),
   (C9_decline_is_clean_exit "test" none (some ErrorKind.restoreError)).2.1⟩

/-- C7: if the local database engine's restore process exits non-zero then
`import_dump` fails with `RestoreError` preserving the engine's exact
diagnostic text, and if the process exits zero the import succeeds. -/
theorem C7_import_dump_restore_error (proc : ProcessResult) :
    (proc.exitCode ≠ 0 →
      importDump proc =
        .error ⟨ErrorKind.restoreError, proc.diagnosticOutput⟩)
    ∧ (proc.exitCode = 0 → importDump proc = .ok ()) := by
  constructor <;> intro h <;> simp [importDump, h]

/-- Witness for C7: a restore failing with exit code 1. -/
theorem C7_import_dump_restore_error_witness :
    importDump ⟨1, "constraint violation"⟩ =
      .error ⟨ErrorKind.restoreError, "constraint violation"⟩ :=
  (C7_import_dump_restore_error ⟨1, "constraint violation"⟩).1 (by decide)

/-- C3: for every download with a declared content length, if fewer bytes
arrive than declared then `download` fails with `IncompleteTransferError`
and no partial file exists at the destination path after the failure. -/
theorem C3_incomplete_download (url destination : String) (n : Nat)
    (chunks : List (List Nat)) (fs : FileSystem)
    (h : chunks.flatten.length < n) :
    (download url destination (some n) chunks fs).1 =
      .error ⟨ErrorKind.incompleteTransferError, "incomplete download"⟩
    ∧ (download url destination (some n) chunks fs).2 destination = none := by
  have h' : (List.map List.length chunks).sum < n := by
    simpa [List.length_flatten] using h
  constructor <;> simp [download, fsDelete, h']

/-- Witness for C3: two bytes arrive of five declared. -/
theorem C3_incomplete_download_witness :
    (download "https://example.invalid/dump" "/tmp/dump.sql" (some 5)
        [[1, 2]] (fun _ => none)).1 =
      .error ⟨ErrorKind.incompleteTransferError, "incomplete download"⟩
    ∧ (download "https://example.invalid/dump" "/tmp/dump.sql" (some 5)
        [[1, 2]] (fun _ => none)).2 "/tmp/dump.sql" = none :=
  C3_incomplete_download "https://example.invalid/dump" "/tmp/dump.sql" 5
    [[1, 2]] (fun _ => none) (by decide)

/-- C1: every run of the pull workflow that creates a TempWorkspace — success
reaching Done, a failure in any of the five workflow states, or a user
abort — leaves the workspace on disk exactly when retention was requested
via the keep-tempfile flag. -/
theorem C1_workspace_cleanup (cfg : PullConfig) (out : PullOutcomes) :
    (runPull cfg out).workspaceOnDisk = cfg.keepTempfile := by
  unfold runPull
  repeat' split
  all_goals simp [pullAborted, pullFailed, cleanupWorkspace]

/-- Every pull run ends in one of four shapes: user abort, a pre-import stage
failure surfacing one of the originating errors, an import failure surfacing
the import error, or Done. -/
theorem runPull_cases (cfg : PullConfig) (out : PullOutcomes) :
    runPull cfg out = pullAborted cfg
    ∨ (∃ e, runPull cfg out = pullFailed cfg e ∧ e ∈ outcomeErrors out)
    ∨ (∃ e, runPull cfg out =
          ⟨WorkflowState.failed, cleanupWorkspace cfg.keepTempfile,
           some e, true⟩
        ∧ out.importOutcome = .error e)
    ∨ runPull cfg out =
        ⟨WorkflowState.done, cleanupWorkspace cfg.keepTempfile, none, true⟩ := by
  unfold runPull
  repeat' split
  all_goals first
    | exact Or.inl rfl
    | exact Or.inr (Or.inr (Or.inr rfl))
    | (rename_i e heq
       first
         | exact Or.inr (Or.inl ⟨e, rfl, by simp [outcomeErrors, heq]⟩)
         | exact Or.inr (Or.inr (Or.inl ⟨e, rfl, heq⟩)))

/-- C4: every error of the taxonomy raised inside a pull workflow run reaches
the workflow boundary unchanged (same kind, same message, one of the
originating stage errors); the workflow ends Failed and its only added
behavior is workspace cleanup; with no user abort and the confirmation gate
open, the surfaced error is exactly the first stage error. -/
theorem C4_error_propagation :
    (∀ cfg out e, (runPull cfg out).surfacedError = some e →
        e ∈ outcomeErrors out
        ∧ (runPull cfg out).finalState = WorkflowState.failed
        ∧ (runPull cfg out).workspaceOnDisk = cfg.keepTempfile)
    ∧ (∀ cfg out, cfg.abortAt = none →
        (cfg.autoConfirm = true ∨ cfg.userConfirms = true) →
        (runPull cfg out).surfacedError = firstOutcomeError out) := by
  constructor
  · intro cfg out e h
    rcases runPull_cases cfg out with hc | ⟨e1, hc, hm⟩ | ⟨e1, hc, himp⟩ | hc
    · rw [hc] at h; simp [pullAborted] at h
    · rw [hc] at h
      simp only [pullFailed, Option.some.injEq] at h
      subst h
      rw [hc]
      exact ⟨hm, rfl, rfl⟩
    · rw [hc] at h
      simp only [Option.some.injEq] at h
      subst h
      rw [hc]
      refine ⟨?_, rfl, rfl⟩
      simp [outcomeErrors, himp]
    · rw [hc] at h; simp at h
  · intro cfg out hab hgate
    rcases out with ⟨o1, o2, o3, o4, o5⟩
    rcases hgate with hg | hg <;>
      rcases o1 with e1 | u1 <;> rcases o2 with e2 | u2 <;>
      rcases o3 with e3 | u3 <;> rcases o4 with e4 | u4 <;>
      rcases o5 with e5 | u5 <;>
      simp_all [runPull, firstOutcomeError, pullAborted, pullFailed,
        cleanupWorkspace]

/-- Witness for C4: a pull run whose request stage fails with a
`RemoteRequestError`. -/
theorem C4_error_propagation_witness :
    (⟨ErrorKind.remoteRequestError, "401 unauthorized"⟩ : StageError)
      ∈ outcomeErrors pullOutcomesFailEx
    ∧ (runPull pullConfigEx pullOutcomesFailEx).finalState
        = WorkflowState.failed
    ∧ (runPull pullConfigEx pullOutcomesFailEx).workspaceOnDisk
        = pullConfigEx.keepTempfile :=
  C4_error_propagation.1 pullConfigEx pullOutcomesFailEx
    ⟨ErrorKind.remoteRequestError, "401 unauthorized"⟩ rfl

/-- C5: the destructive import step — local database replacement on pull,
triggering the remote import on push, and the push operations of the
`push db` command body — is never entered unless the no-confirmation bypass
was set or the user confirmed. -/
theorem C5_destructive_gate :
    (∀ cfg out, (runPull cfg out).importEntered = true →
        cfg.autoConfirm = true ∨ cfg.userConfirms = true)
    ∧ (∀ cfg out, (runPush cfg out).remoteImportTriggered = true →
        cfg.autoConfirm = true ∨ cfg.userConfirms = true)
    ∧ (∀ (environment : String) (dumpfile : Option String)
          (noinput confirmAnswer : Bool) (pushOutcome : Option ErrorKind),
        (∃ e ∈ (push_db_run environment dumpfile noinput confirmAnswer
                  pushOutcome).1, isPushEvent e = true) →
        noinput = true ∨ confirmAnswer = true) := by
  refine ⟨?_, ?_, ?_⟩
  · intro cfg out h
    unfold runPull at h
    repeat' split at h
    all_goals try simp_all [pullAborted, pullFailed]
    all_goals
      rename_i hgate hne heq
      cases hac : cfg.autoConfirm
      · exact Or.inr (hgate hac)
      · exact Or.inl rfl
  · intro cfg out h
    unfold runPush at h
    repeat' split at h
    all_goals try simp_all [pushAborted, pushFailed]
    all_goals
      rename_i hgate hne heq
      cases hac : cfg.autoConfirm
      · exact Or.inr (hgate hac)
      · exact Or.inl rfl
  · intro environment dumpfile noinput confirmAnswer pushOutcome h
    rcases h with ⟨e, he, hp⟩
    cases noinput with
    | true => exact Or.inl rfl
    | false =>
        cases confirmAnswer with
        | true => exact Or.inr rfl
        | false =>
            exfalso
            cases dumpfile <;> simp [push_db_run] at he <;>
              rcases he with h1 | h1 <;> subst h1 <;>
              simp [isPushEvent] at hp

/-- Witness for C5: a pull run that enters the import step under the
no-confirmation bypass. -/
theorem C5_destructive_gate_witness :
    pullConfigEx.autoConfirm = true ∨ pullConfigEx.userConfirms = true :=
  C5_destructive_gate.1 pullConfigEx pullOutcomesOkEx rfl

/-- Decoding inverts run-length encoding. -/
theorem rleDecode_rleEncode (xs : List Nat) :
    rleDecode (rleEncode xs) = xs := by
  induction xs with
  | nil => rfl
  | cons x xs ih =>
      simp only [rleEncode]
      cases h : rleEncode xs with
      | nil =>
          rw [h] at ih
          simp only [rleDecode] at ih
          simp [rleDecode, ← ih]
      | cons p rest =>
          obtain ⟨n, y⟩ := p
          rw [h] at ih
          simp only [rleDecode] at ih
          by_cases hxy : x = y
          · subst hxy
            simp [rleDecode, List.replicate_succ, ih]
          · simp [hxy, rleDecode, ih]

/-- Parsing inverts pair flattening. -/
theorem parsePairs_flattenPairs (ps : List (Nat × Nat)) :
    parsePairs (flattenPairs ps) = some ps := by
  induction ps with
  | nil => rfl
  | cons p rest ih =>
      obtain ⟨n, y⟩ := p
      simp [flattenPairs, parsePairs, ih]

/-- C6: for every input byte sequence, extracting the archive produced by
compressing it yields exactly the input bytes, and compress is
deterministic: identical input bytes give identical archives. -/
theorem C6_compress_extract_round_trip :
    (∀ x : List Nat, extract (compress x) = .ok x)
    ∧ (∀ x y : List Nat, x = y → compress x = compress y) := by
  constructor
  · intro x
    simp [extract, compress, ARCHIVE_MAGIC, parsePairs_flattenPairs,
      rleDecode_rleEncode]
  · intro x y h
    rw [h]

/-- Witness for C6 on concrete bytes. -/
theorem C6_compress_extract_round_trip_witness :
    extract (compress [3, 3, 7]) = .ok [3, 3, 7]
    ∧ compress [3, 3, 7] = compress [3, 3, 7] :=
  ⟨C6_compress_extract_round_trip.1 [3, 3, 7],
   C6_compress_extract_round_trip.2 [3, 3, 7] [3, 3, 7] rfl⟩

/-- A non-terminal status is neither ready nor failed nor expired. -/
theorem isTerminalStatus_eq_false (s : JobStatus)
    (h : isTerminalStatus s = false) :
    s ≠ JobStatus.ready ∧ s ≠ JobStatus.failed ∧ s ≠ JobStatus.expired := by
  cases s <;> simp_all [isTerminalStatus]

/-- If the first terminal response is poll `k + m` and it still happens
within the timeout, the polling loop returns that response's terminal
result (given enough fuel). -/
theorem waitAux_reaches_terminal (poll : Nat → PollResponse)
    (interval timeout : Nat) :
    ∀ (m k fuel : Nat), m < fuel →
      (∀ j, j < m → isTerminalStatus (poll (k + j)).status = false) →
      (k + m) * interval ≤ timeout →
      isTerminalStatus (poll (k + m)).status = true →
      waitAux poll interval timeout k (k * interval) fuel =
        terminalResult (poll (k + m)) := by
  intro m
  induction m with
  | zero =>
      intro k fuel hfuel hnt hle hterm
      cases fuel with
      | zero => omega
      | succ f =>
          rw [Nat.add_zero] at hterm ⊢
          simp only [waitAux]
          cases hs : (poll k).status <;>
            simp_all [isTerminalStatus, terminalResult]
  | succ m ih =>
      intro k fuel hfuel hnt hle hterm
      cases fuel with
      | zero => omega
      | succ f =>
          have h0 : isTerminalStatus (poll k).status = false := by
            have := hnt 0 (Nat.succ_pos m)
            simpa using this
          obtain ⟨hr, hf, he⟩ := isTerminalStatus_eq_false _ h0
          simp only [waitAux]
          rw [if_neg hr, if_neg (by tauto :
            ¬((poll k).status = JobStatus.failed
              ∨ (poll k).status = JobStatus.expired))]
          have hcont : k * interval + interval ≤ timeout := by
            have hstep : (k + 1) * interval ≤ (k + (m + 1)) * interval :=
              Nat.mul_le_mul_right interval (by omega)
            have hsm : k * interval + interval = (k + 1) * interval :=
              (Nat.succ_mul k interval).symm
            rw [hsm]
            exact le_trans hstep hle
          rw [if_pos hcont]
          have hsm : k * interval + interval = (k + 1) * interval :=
            (Nat.succ_mul k interval).symm
          rw [hsm]
          have hidx : k + 1 + m = k + (m + 1) := by omega
          have hnt' : ∀ j, j < m →
              isTerminalStatus (poll (k + 1 + j)).status = false := by
            intro j hj
            have := hnt (j + 1) (by omega)
            have e : k + (j + 1) = k + 1 + j := by omega
            rwa [e] at this
          have := ih (k + 1) f (by omega) hnt'
            (by rw [hidx]; exact hle) (by rw [hidx]; exact hterm)
          rw [this, hidx]

/-- If every poll that happens within the timeout is non-terminal, the
polling loop fails with `JobTimeoutError`, for every fuel value. -/
theorem waitAux_timeout (poll : Nat → PollResponse) (interval timeout : Nat)
    (hnt : ∀ j, j * interval ≤ timeout →
      isTerminalStatus (poll j).status = false) :
    ∀ (fuel k : Nat), k * interval ≤ timeout →
      waitAux poll interval timeout k (k * interval) fuel =
        .error ⟨ErrorKind.jobTimeoutError, "timeout"⟩ := by
  intro fuel
  induction fuel with
  | zero => intro k hk; simp [waitAux]
  | succ f ih =>
      intro k hk
      have h0 := hnt k hk
      obtain ⟨hr, hf, he⟩ := isTerminalStatus_eq_false _ h0
      simp only [waitAux]
      rw [if_neg hr, if_neg (by tauto :
        ¬((poll k).status = JobStatus.failed
          ∨ (poll k).status = JobStatus.expired))]
      by_cases hc : k * interval + interval ≤ timeout
      · rw [if_pos hc]
        have hsm : k * interval + interval = (k + 1) * interval :=
          (Nat.succ_mul k interval).symm
        rw [hsm]
        exact ih (k + 1) (hsm ▸ hc)
      · rw [if_neg hc]

/-- C2: for every poll trace and every timeout, `wait_until_ready` polls at a
fixed interval and returns the response as soon as a poll reports Ready; it
fails with `JobFailedError` carrying the server message if a poll reports
Failed or Expired; and it fails with `JobTimeoutError` if no poll within the
timeout reports Ready, Failed or Expired, regardless of how many polling
intervals occurred. -/
theorem C2_wait_until_ready (poll : Nat → PollResponse)
    (interval timeout : Nat) (hi : 0 < interval) :
    (∀ k, (∀ j, j < k → isTerminalStatus (poll j).status = false) →
        k * interval ≤ timeout → (poll k).status = JobStatus.ready →
        wait_until_ready poll interval timeout = .ok (poll k))
    ∧ (∀ k, (∀ j, j < k → isTerminalStatus (poll j).status = false) →
        k * interval ≤ timeout →
        ((poll k).status = JobStatus.failed
          ∨ (poll k).status = JobStatus.expired) →
        wait_until_ready poll interval timeout =
          .error ⟨ErrorKind.jobFailedError, (poll k).serverMessage⟩)
    ∧ ((∀ j, j * interval ≤ timeout →
          isTerminalStatus (poll j).status = false) →
        wait_until_ready poll interval timeout =
          .error ⟨ErrorKind.jobTimeoutError, "timeout"⟩) := by
  have hfuel : ∀ k, k * interval ≤ timeout → k < timeout / interval + 2 := by
    intro k hk
    have : k ≤ timeout / interval := (Nat.le_div_iff_mul_le hi).mpr hk
    omega
  refine ⟨?_, ?_, ?_⟩
  · intro k hnt hle hready
    have hterm : isTerminalStatus (poll (0 + k)).status = true := by
      rw [Nat.zero_add, hready]; rfl
    have := waitAux_reaches_terminal poll interval timeout k 0
      (timeout / interval + 2) (hfuel k hle)
      (by intro j hj; rw [Nat.zero_add]; exact hnt j hj)
      (by rw [Nat.zero_add]; exact hle) hterm
    rw [Nat.zero_mul] at this
    rw [Nat.zero_add] at this
    unfold wait_until_ready
    rw [this, terminalResult, if_pos hready]
  · intro k hnt hle hfe
    have hterm : isTerminalStatus (poll (0 + k)).status = true := by
      rw [Nat.zero_add]
      rcases hfe with h | h <;> rw [h] <;> rfl
    have := waitAux_reaches_terminal poll interval timeout k 0
      (timeout / interval + 2) (hfuel k hle)
      (by intro j hj; rw [Nat.zero_add]; exact hnt j hj)
      (by rw [Nat.zero_add]; exact hle) hterm
    rw [Nat.zero_mul] at this
    rw [Nat.zero_add] at this
    unfold wait_until_ready
    rw [this, terminalResult,
      if_neg (by rcases hfe with h | h <;> rw [h] <;> simp)]
  · intro hnt
    have := waitAux_timeout poll interval timeout hnt
      (timeout / interval + 2) 0 (by simp)
    rw [Nat.zero_mul] at this
    unfold wait_until_ready
    exact this

/-- Witness for C2: pending, pending, ready at interval 5 within timeout
30. -/
theorem C2_wait_until_ready_witness :
    wait_until_ready pollEx 5 30 = .ok (pollEx 2) :=
  (C2_wait_until_ready pollEx 5 30 (by decide)).1 2 (by decide) (by decide)
    (by decide)

end Divio
